import Mathlib

/-! The protocol layer of cppsim (`src/common/protocol.cpp`).

A shallow embedding of the four `parse_*` and the four `serialize_*` functions
of `cppsim::protocol`.

* C++ exceptions are explicit: a call either completes or throws a `Thrown`
  value, and a function of the protocol layer either returns to its caller or
  lets the exception propagate (`Completion`).
* `std::cerr` is an explicit character stream (`String`) passed through every
  parser.
* `std::string` texts are `String`s.
* The nlohmann JSON library (`json::parse`, `json::dump`) is external and the
  declarations of `protocol.hpp` (message types, `from_json`, `to_json`) are not
  part of `protocol.cpp`; they are the fields of `Library`, `Inbound` and
  `Outbound`, taken as pure functions that do not write to `std::cerr`.
-/

namespace cppsim
namespace protocol

/-! ## Exceptions and calls -/

/-- What a `throw` carries, as far as the `catch` clauses of `protocol.cpp`
tell exceptions apart: a `nlohmann::json::exception` (the base class of
`parse_error`, `type_error`, `out_of_range`, `invalid_iterator` and
`other_error`) or an exception of any other type. `what` is `e.what()`. -/
inductive Thrown where
  | json_exception (what : String)
  | other (what : String)
  deriving DecidableEq, Repr

/-- How a function of the protocol layer ends: it returns a value, or an
exception leaves it and reaches the caller. -/
inductive Completion (α : Type) where
  | returned (value : α)
  | propagated (e : Thrown)
  deriving DecidableEq, Repr

/-- A finished call of a parser: how it ended and the content of `std::cerr`
afterwards. -/
structure Call (α : Type) where
  result : Completion α
  cerr : String
  deriving DecidableEq, Repr

/-- What `from_json(j, msg)` leaves behind: `msg` is passed by reference, so a
throwing conversion may already have assigned some of its fields. -/
structure Converted (μ : Type) where
  msg : μ
  thrown : Option Thrown
  deriving DecidableEq, Repr

/-! ## What `protocol.cpp` uses and does not define -/

/-- The part of the nlohmann JSON library that `protocol.cpp` calls. -/
structure Library where
  /-- The type `nlohmann::json`. -/
  Json : Type
  /-- The call `nlohmann::json::parse(json_str)`. -/
  parse : String → Except Thrown Json
  /-- The declaration `nlohmann::json j;`. -/
  null : Json
  /-- The call `j.dump()`. -/
  dump : Json → Except Thrown String

/-- The declarations of `protocol.hpp` for the four kinds that are parsed. -/
structure Inbound (lib : Library) where
  handshake_message : Type
  action_message : Type
  reload_request_message : Type
  disconnect_message : Type
  /-- The declaration `handshake_message msg;`. -/
  handshake_default : handshake_message
  /-- The declaration `action_message msg;`. -/
  action_default : action_message
  /-- The declaration `reload_request_message msg;`. -/
  reload_request_default : reload_request_message
  /-- The declaration `disconnect_message msg;`. -/
  disconnect_default : disconnect_message
  /-- The call `from_json(j, msg)` on a `handshake_message` -/
  from_json_handshake : lib.Json → handshake_message → Converted handshake_message
  /-- The call `from_json(j, msg)` on an `action_message` -/
  from_json_action : lib.Json → action_message → Converted action_message
  /-- The call `from_json(j, msg)` on a `reload_request_message` -/
  from_json_reload_request :
    lib.Json → reload_request_message → Converted reload_request_message
  /-- The call `from_json(j, msg)` on a `disconnect_message` -/
  from_json_disconnect : lib.Json → disconnect_message → Converted disconnect_message

/-- The declarations of `protocol.hpp` for the four kinds that are serialized.
`to_json(j, msg)` writes through the reference `j`; its result here is the new
content of `j`. -/
structure Outbound (lib : Library) where
  state_update_message : Type
  error_message : Type
  handshake_response : Type
  reload_response_message : Type
  to_json_state_update : lib.Json → state_update_message → Except Thrown lib.Json
  to_json_error : lib.Json → error_message → Except Thrown lib.Json
  to_json_handshake_response : lib.Json → handshake_response → Except Thrown lib.Json
  to_json_reload_response :
    lib.Json → reload_response_message → Except Thrown lib.Json

/-! ## The functions of `protocol.cpp` -/

/-- The statement `std::cerr << pre << e.what() << std::endl;`. -/
def emit (cerr pre what : String) : String :=
  cerr ++ pre ++ what ++ "\n"

/-- The function `parse_handshake` (protocol.cpp, lines 9-19). -/
def parse_handshake (lib : Library) (d : Inbound lib) (json_str cerr : String) :
    Call (Option d.handshake_message) :=
  match lib.parse json_str with
  | .error (.json_exception what) =>
    ⟨.returned none, emit cerr "Failed to parse handshake message: " what⟩
  | .error (.other what) => ⟨.propagated (.other what), cerr⟩
  | .ok j =>
    match d.from_json_handshake j d.handshake_default with
    | ⟨msg, none⟩ => ⟨.returned (some msg), cerr⟩
    | ⟨_, some (.json_exception what)⟩ =>
      ⟨.returned none, emit cerr "Failed to parse handshake message: " what⟩
    | ⟨_, some (.other what)⟩ => ⟨.propagated (.other what), cerr⟩

/-- The function `parse_action` (protocol.cpp, lines 22-32). -/
def parse_action (lib : Library) (d : Inbound lib) (json_str cerr : String) :
    Call (Option d.action_message) :=
  match lib.parse json_str with
  | .error (.json_exception what) =>
    ⟨.returned none, emit cerr "Failed to parse action message: " what⟩
  | .error (.other what) => ⟨.propagated (.other what), cerr⟩
  | .ok j =>
    match d.from_json_action j d.action_default with
    | ⟨msg, none⟩ => ⟨.returned (some msg), cerr⟩
    | ⟨_, some (.json_exception what)⟩ =>
      ⟨.returned none, emit cerr "Failed to parse action message: " what⟩
    | ⟨_, some (.other what)⟩ => ⟨.propagated (.other what), cerr⟩

/-- The function `parse_reload_request` (protocol.cpp, lines 35-47). -/
def parse_reload_request (lib : Library) (d : Inbound lib) (json_str cerr : String) :
    Call (Option d.reload_request_message) :=
  match lib.parse json_str with
  | .error (.json_exception what) =>
    ⟨.returned none, emit cerr "Failed to parse reload request message: " what⟩
  | .error (.other what) => ⟨.propagated (.other what), cerr⟩
  | .ok j =>
    match d.from_json_reload_request j d.reload_request_default with
    | ⟨msg, none⟩ => ⟨.returned (some msg), cerr⟩
    | ⟨_, some (.json_exception what)⟩ =>
      ⟨.returned none, emit cerr "Failed to parse reload request message: " what⟩
    | ⟨_, some (.other what)⟩ => ⟨.propagated (.other what), cerr⟩

/-- The function `parse_disconnect` (protocol.cpp, lines 50-62). -/
def parse_disconnect (lib : Library) (d : Inbound lib) (json_str cerr : String) :
    Call (Option d.disconnect_message) :=
  match lib.parse json_str with
  | .error (.json_exception what) =>
    ⟨.returned none, emit cerr "Failed to parse disconnect message: " what⟩
  | .error (.other what) => ⟨.propagated (.other what), cerr⟩
  | .ok j =>
    match d.from_json_disconnect j d.disconnect_default with
    | ⟨msg, none⟩ => ⟨.returned (some msg), cerr⟩
    | ⟨_, some (.json_exception what)⟩ =>
      ⟨.returned none, emit cerr "Failed to parse disconnect message: " what⟩
    | ⟨_, some (.other what)⟩ => ⟨.propagated (.other what), cerr⟩

/-- The function `serialize_state_update` (protocol.cpp, lines 65-69). There is no `try`
block: whatever `to_json` or `dump` throws leaves the function. -/
def serialize_state_update (lib : Library) (d : Outbound lib)
    (msg : d.state_update_message) : Completion String :=
  match d.to_json_state_update lib.null msg with
  | .error e => .propagated e
  | .ok j =>
    match lib.dump j with
    | .error e => .propagated e
    | .ok text => .returned text

/-- The function `serialize_error` (protocol.cpp, lines 72-76). -/
def serialize_error (lib : Library) (d : Outbound lib)
    (msg : d.error_message) : Completion String :=
  match d.to_json_error lib.null msg with
  | .error e => .propagated e
  | .ok j =>
    match lib.dump j with
    | .error e => .propagated e
    | .ok text => .returned text

/-- The function `serialize_handshake_response` (protocol.cpp, lines 79-83). -/
def serialize_handshake_response (lib : Library) (d : Outbound lib)
    (msg : d.handshake_response) : Completion String :=
  match d.to_json_handshake_response lib.null msg with
  | .error e => .propagated e
  | .ok j =>
    match lib.dump j with
    | .error e => .propagated e
    | .ok text => .returned text

/-- The function `serialize_reload_response` (protocol.cpp, lines 86-90). -/
def serialize_reload_response (lib : Library) (d : Outbound lib)
    (msg : d.reload_response_message) : Completion String :=
  match d.to_json_reload_response lib.null msg with
  | .error e => .propagated e
  | .ok j =>
    match lib.dump j with
    | .error e => .propagated e
    | .ok text => .returned text

/-- The shape shared by the four parsers: in the `try` block the text is
parsed, a message is default-constructed, `from_json` fills it and it is
returned; the handler for `const nlohmann::json::exception&` writes `pre` and
`e.what()` to `std::cerr` and returns `std::nullopt`. -/
def try_parse {J M : Type} (parse : String → Except Thrown J) (dflt : M)
    (from_json : J → M → Converted M) (pre json_str cerr : String) :
    Call (Option M) :=
  match parse json_str with
  | .error (.json_exception what) => ⟨.returned none, emit cerr pre what⟩
  | .error (.other what) => ⟨.propagated (.other what), cerr⟩
  | .ok j =>
    match from_json j dflt with
    | ⟨msg, none⟩ => ⟨.returned (some msg), cerr⟩
    | ⟨_, some (.json_exception what)⟩ => ⟨.returned none, emit cerr pre what⟩
    | ⟨_, some (.other what)⟩ => ⟨.propagated (.other what), cerr⟩

/-- The shape shared by the four serializers. -/
def dump_of {J M : Type} (null : J) (dump : J → Except Thrown String)
    (to_json : J → M → Except Thrown J) (msg : M) : Completion String :=
  match to_json null msg with
  | .error e => .propagated e
  | .ok j =>
    match dump j with
    | .error e => .propagated e
    | .ok text => .returned text

/-! ## The message schema, as far as the specification fixes it -/

/-- Modelled from the spec: a value of the "structured text object (UTF-8 text,
commonly JSON)" of section 6, as `nlohmann::json` holds it. The library is not
under `src/`. A string is the byte content of its `std::string`; the members of
an object are listed in the order of its `std::map`; numbers are kept as
integers, the conversion below looking at the JSON type of a value only. -/
inductive JVal where
  | null
  | boolean (b : Bool)
  | number (n : Int)
  | string (bytes : List Nat)
  | array (items : List JVal)
  | object (members : List (String × JVal))
  deriving Repr

/-- The JSON types a field can be declared with. -/
inductive JType where
  | null | boolean | number | string | array | object
  deriving DecidableEq, Repr

/-- The JSON type of a value. -/
def JVal.type : JVal → JType
  | .null => .null
  | .boolean _ => .boolean
  | .number _ => .number
  | .string _ => .string
  | .array _ => .array
  | .object _ => .object

/-- The member `key` of an object; `none` for a value that is not an object or
has no such member. -/
def JVal.field (j : JVal) (key : String) : Option JVal :=
  match j with
  | .object members => members.lookup key
  | _ => none

/-- Modelled from the spec: one field of a message kind (section 4.1: "every
field has a defined required/optional status; optional fields have a defined
default when absent during parse"). `protocol.hpp`, which declares the fields,
is not under `src/`. -/
structure Field where
  name : String
  type : JType
  required : Bool
  default : JVal

/-- The fields of one message kind, in declaration order. -/
abbrev Schema := List Field

/-- A message of a kind given by a schema: the value of each field. -/
abbrev Record := List (String × JVal)

/-- A default-constructed message: every field holds its default. -/
def Schema.default_message (schema : Schema) : Record :=
  schema.map fun f => (f.name, f.default)

/-- The assignment `msg.name = v`. -/
def Record.assign (msg : Record) (name : String) (v : JVal) : Record :=
  msg.map fun kv => if kv.1 = name then (kv.1, v) else kv

/-- Modelled from the spec: `from_json(j, msg)` of `protocol.hpp`, which is not
under `src/`. Section 4.2 has the parser check that "(b) all required fields for
the kind are present; (c) each field value is convertible to its declared
semantic type", section 7 names the two failures (missing-field,
type-mismatch), and the second example scenario of section 8 has the diagnostic
name the first missing field. The fields are converted in declaration order; the
first failure throws a JSON exception and leaves the fields assigned so far in
`msg`; an absent optional field keeps its default. -/
def spec_from_json : Schema → JVal → Record → Converted Record
  | [], _, msg => ⟨msg, none⟩
  | f :: fs, j, msg =>
    match j.field f.name with
    | none =>
      if f.required then
        ⟨msg, some (.json_exception ("missing field: " ++ f.name))⟩
      else spec_from_json fs j msg
    | some v =>
      if v.type = f.type then spec_from_json fs j (msg.assign f.name v)
      else ⟨msg, some (.json_exception ("type mismatch: " ++ f.name))⟩

/-- The library, with `JVal` for `nlohmann::json`; `json::parse` and `dump` stay
parameters. -/
def jval_library (parse : String → Except Thrown JVal)
    (dump : JVal → Except Thrown String) : Library :=
  { Json := JVal, parse := parse, null := JVal.null, dump := dump }

/-- Modelled from the spec: the declarations of `protocol.hpp` (not under
`src/`) for the four parsed kinds, each kind given by its schema and converted
by `spec_from_json`. -/
def spec_inbound (parse : String → Except Thrown JVal)
    (dump : JVal → Except Thrown String)
    (handshake action reload_request disconnect : Schema) :
    Inbound (jval_library parse dump) :=
  { handshake_message := Record
    action_message := Record
    reload_request_message := Record
    disconnect_message := Record
    handshake_default := handshake.default_message
    action_default := action.default_message
    reload_request_default := reload_request.default_message
    disconnect_default := disconnect.default_message
    from_json_handshake := spec_from_json handshake
    from_json_action := spec_from_json action
    from_json_reload_request := spec_from_json reload_request
    from_json_disconnect := spec_from_json disconnect }

/-- Some required field of the schema is not a member of `j`. -/
def lacks_required (schema : Schema) (j : JVal) : Prop :=
  ∃ f ∈ schema, f.required = true ∧ j.field f.name = none

/-- Every required field of the schema is a member of `j`. -/
def has_all_required (schema : Schema) (j : JVal) : Prop :=
  ∀ f ∈ schema, f.required = true → (j.field f.name).isSome = true

/-- Some field of the schema is a member of `j` with a value of another JSON
type than the declared one. -/
def has_wrong_type (schema : Schema) (j : JVal) : Prop :=
  ∃ f ∈ schema, ∃ v, j.field f.name = some v ∧ v.type ≠ f.type

/-! ## A concrete instance, on which the functions are evaluated

The instance stands in for the library and for `protocol.hpp` at the inputs the
evaluations below use: `sample_parse` knows a few texts, `sample_dump` writes
compact JSON and checks strings for UTF-8 as `dump` does with its default
(strict) error handler, and the schemas are examples of message kinds. -/

/-- The bytes of an ASCII string. -/
def ascii (s : String) : List Nat :=
  s.toList.map Char.toNat

/-- One hexadecimal digit, upper case. -/
def hex_digit (n : Nat) : Char :=
  if n < 10 then Char.ofNat (48 + n) else Char.ofNat (55 + n)

/-- A byte as two hexadecimal digits. -/
def hex_byte (b : Nat) : String :=
  String.mk [hex_digit (b / 16), hex_digit (b % 16)]

/-- The text `dump` writes for one code point below 0x80. -/
def dump_ascii (b : Nat) : List Char :=
  if b = 0x22 then "\\\"".toList
  else if b = 0x5C then "\\\\".toList
  else if b = 0x08 then "\\b".toList
  else if b = 0x09 then "\\t".toList
  else if b = 0x0A then "\\n".toList
  else if b = 0x0C then "\\f".toList
  else if b = 0x0D then "\\r".toList
  else if b < 0x20 then
    "\\u00".toList ++ [(hex_digit (b / 16)).toLower, (hex_digit (b % 16)).toLower]
  else [Char.ofNat b]

/-- The content of a dumped string. `need` continuation bytes are still due,
the next one within `lo..hi`; `cp` is the code point read so far, `last` the
previous byte, `index` the position of the head of `bytes`. -/
def dump_bytes : List Nat → (index need lo hi cp last : Nat) → Except Thrown (List Char)
  | [], _, need, _, _, _, last =>
    if need = 0 then .ok []
    else .error (.json_exception
      ("[json.exception.type_error.316] incomplete UTF-8 string; last byte: 0x"
        ++ hex_byte last))
  | b :: rest, index, need, lo, hi, cp, _ =>
    let invalid : Except Thrown (List Char) := .error (.json_exception
      ("[json.exception.type_error.316] invalid UTF-8 byte at index "
        ++ toString index ++ ": 0x" ++ hex_byte b))
    if need = 0 then
      if b < 0x80 then (dump_bytes rest (index + 1) 0 0x80 0xBF 0 b).map (dump_ascii b ++ ·)
      else if 0xC2 ≤ b ∧ b ≤ 0xDF then dump_bytes rest (index + 1) 1 0x80 0xBF (b - 0xC0) b
      else if b = 0xE0 then dump_bytes rest (index + 1) 2 0xA0 0xBF (b - 0xE0) b
      else if b = 0xED then dump_bytes rest (index + 1) 2 0x80 0x9F (b - 0xE0) b
      else if 0xE1 ≤ b ∧ b ≤ 0xEF then dump_bytes rest (index + 1) 2 0x80 0xBF (b - 0xE0) b
      else if b = 0xF0 then dump_bytes rest (index + 1) 3 0x90 0xBF (b - 0xF0) b
      else if 0xF1 ≤ b ∧ b ≤ 0xF3 then dump_bytes rest (index + 1) 3 0x80 0xBF (b - 0xF0) b
      else if b = 0xF4 then dump_bytes rest (index + 1) 3 0x80 0x8F (b - 0xF0) b
      else invalid
    else if lo ≤ b ∧ b ≤ hi then
      if need = 1 then
        (dump_bytes rest (index + 1) 0 0x80 0xBF 0 b).map
          ([Char.ofNat (cp * 64 + (b - 0x80))] ++ ·)
      else dump_bytes rest (index + 1) (need - 1) 0x80 0xBF (cp * 64 + (b - 0x80)) b
    else invalid

/-- A string value as `dump` writes it. -/
def dump_string (bytes : List Nat) : Except Thrown String :=
  (dump_bytes bytes 0 0 0x80 0xBF 0 0).map fun cs => "\"" ++ String.mk cs ++ "\""

/-- A member name as `dump` writes it. -/
def dump_key (key : String) : String :=
  "\"" ++ String.mk (key.toList.flatMap fun c =>
    if c.toNat < 0x80 then dump_ascii c.toNat else [c]) ++ "\""

/-- A stand-in for `j.dump()`: compact text, members in the order listed. -/
def sample_dump : JVal → Except Thrown String
  | .null => .ok "null"
  | .boolean b => .ok (if b then "true" else "false")
  | .number n => .ok (toString n)
  | .string bytes => dump_string bytes
  | .array items => (dump_items items).map fun ts => "[" ++ ",".intercalate ts ++ "]"
  | .object members =>
    (dump_members members).map fun ts => "\x7b" ++ ",".intercalate ts ++ "\x7d"
where
  dump_items : List JVal → Except Thrown (List String)
    | [] => .ok []
    | v :: vs =>
      match sample_dump v with
      | .error e => .error e
      | .ok t => (dump_items vs).map (t :: ·)
  dump_members : List (String × JVal) → Except Thrown (List String)
    | [] => .ok []
    | (k, v) :: ms =>
      match sample_dump v with
      | .error e => .error e
      | .ok t => (dump_members ms).map ((dump_key k ++ ":" ++ t) :: ·)

/-- A stand-in for `nlohmann::json::parse` that knows four texts; every other
text used below is not JSON and gets the syntax error of the library. -/
def sample_parse (text : String) : Except Thrown JVal :=
  if text = "\x7b\x7d" then .ok (.object [])
  else if text = "\x7b\"reason\":\"client_shutdown\"\x7d" then
    .ok (.object [("reason", .string (ascii "client_shutdown"))])
  else if text = "\x7b\"reason\":42\x7d" then
    .ok (.object [("reason", .number 42)])
  else if text = "\x7b\"protocol_version\":\"1.0\"\x7d" then
    .ok (.object [("protocol_version", .string (ascii "1.0"))])
  else .error (.json_exception "[json.exception.parse_error.101] parse error")

/-- A `json::parse` that runs out of memory. -/
def exhausted_parse (_ : String) : Except Thrown JVal :=
  .error (.other "std::bad_alloc")

def sample_library : Library :=
  jval_library sample_parse sample_dump

def exhausted_library : Library :=
  jval_library exhausted_parse sample_dump

def sample_handshake : Schema :=
  [⟨"protocol_version", .string, true, .string []⟩,
   ⟨"client_name", .string, false, .string (ascii "anonymous")⟩]

def sample_action : Schema :=
  [⟨"agent_id", .number, true, .number 0⟩, ⟨"payload", .object, true, .object []⟩]

def sample_reload_request : Schema :=
  [⟨"seed", .number, true, .number 0⟩]

def sample_disconnect : Schema :=
  [⟨"reason", .string, true, .string []⟩]

def sample_inbound : Inbound sample_library :=
  spec_inbound sample_parse sample_dump
    sample_handshake sample_action sample_reload_request sample_disconnect

def exhausted_inbound : Inbound exhausted_library :=
  spec_inbound exhausted_parse sample_dump
    sample_handshake sample_action sample_reload_request sample_disconnect

/-- Outbound kinds of the instance: a message is the record of its fields, and
`to_json` makes the object of these fields. -/
def sample_outbound : Outbound sample_library :=
  { state_update_message := Record
    error_message := Record
    handshake_response := Record
    reload_response_message := Record
    to_json_state_update := fun _ msg => .ok (.object msg)
    to_json_error := fun _ msg => .ok (.object msg)
    to_json_handshake_response := fun _ msg => .ok (.object msg)
    to_json_reload_response := fun _ msg => .ok (.object msg) }

/-- An `error_message` whose detail text is the single byte 0xFF. -/
def bad_utf8_error : Record :=
  [("code", .number 7), ("detail", .string [0xFF])]

/-- An `error_message` with an ASCII detail text. -/
def plain_error : Record :=
  [("code", .number 7), ("detail", .string (ascii "bad \"seed\""))]

/-! ## Properties of one parser call, used in the statements -/

/-- The JSON text parse or the conversion threw a `nlohmann::json::exception`
whose text is `what`. -/
def raises_json {J M : Type} (parse : String → Except Thrown J) (dflt : M)
    (from_json : J → M → Converted M) (json_str what : String) : Prop :=
  parse json_str = .error (.json_exception what) ∨
  ∃ j left, parse json_str = .ok j ∧
    from_json j dflt = ⟨left, some (.json_exception what)⟩

/-- The JSON text parse or the conversion threw an exception that is not a
`nlohmann::json::exception`. -/
def raises_other {J M : Type} (parse : String → Except Thrown J) (dflt : M)
    (from_json : J → M → Converted M) (json_str what : String) : Prop :=
  parse json_str = .error (.other what) ∨
  ∃ j left, parse json_str = .ok j ∧ from_json j dflt = ⟨left, some (.other what)⟩

/-- The call returned to its caller, with a message or with `std::nullopt`. -/
def returns_value {α : Type} (c : Completion α) : Prop :=
  ∃ v, c = .returned v

/-- All-or-nothing: the call `result` of a parser built from `parse`, `dflt`
and `from_json` returns a message exactly when both steps complete, the message
is the one `from_json` made of the default-constructed one, and a JSON exception
in either step gives `std::nullopt`. -/
def all_or_nothing {J M : Type} (parse : String → Except Thrown J) (dflt : M)
    (from_json : J → M → Converted M) (json_str : String)
    (result : Completion (Option M)) : Prop :=
  (∀ m, result = .returned (some m) ↔
    ∃ j, parse json_str = .ok j ∧ from_json j dflt = ⟨m, none⟩) ∧
  (∀ what, raises_json parse dflt from_json json_str what → result = .returned none)

/-- Diagnostic emission of a parser call that started with `cerr` on the
stream and ended as `call`: the stream grew exactly when `std::nullopt` was
returned, and then by the line made of `pre`, the text of the caught exception
and the end of line. -/
def emits_diagnostic {J M : Type} (parse : String → Except Thrown J) (dflt : M)
    (from_json : J → M → Converted M) (pre json_str cerr : String)
    (call : Call (Option M)) : Prop :=
  (call.cerr ≠ cerr ↔ call.result = .returned none) ∧
  (call.result = .returned none →
    ∃ what, raises_json parse dflt from_json json_str what ∧
      call.cerr = cerr ++ pre ++ what ++ "\n") ∧
  (call.result ≠ .returned none → call.cerr = cerr)

/-- What a serializer built from `null`, `dump` and `to_json` does with the
message `msg`: it returns the text `dump` made of the object `to_json` built,
and whatever either step throws leaves the serializer. -/
def returns_dump_or_propagates {J M : Type} (null : J)
    (dump : J → Except Thrown String) (to_json : J → M → Except Thrown J) (msg : M)
    (result : Completion String) : Prop :=
  (∀ j text, to_json null msg = .ok j → dump j = .ok text → result = .returned text) ∧
  (∀ e, to_json null msg = .error e → result = .propagated e) ∧
  (∀ j e, to_json null msg = .ok j → dump j = .error e → result = .propagated e)

/-! ## The four parsers and the four serializers have one shape each -/

theorem parse_handshake_eq (lib : Library) (d : Inbound lib) (s c : String) :
    parse_handshake lib d s c = try_parse lib.parse d.handshake_default
      d.from_json_handshake "Failed to parse handshake message: " s c := by
  unfold parse_handshake try_parse
  cases lib.parse s with
  | error e => cases e <;> rfl
  | ok j =>
    dsimp only
    cases d.from_json_handshake j d.handshake_default with
    | mk msg thrown =>
      cases thrown with
      | none => rfl
      | some e => cases e <;> rfl

theorem parse_action_eq (lib : Library) (d : Inbound lib) (s c : String) :
    parse_action lib d s c = try_parse lib.parse d.action_default
      d.from_json_action "Failed to parse action message: " s c := by
  unfold parse_action try_parse
  cases lib.parse s with
  | error e => cases e <;> rfl
  | ok j =>
    dsimp only
    cases d.from_json_action j d.action_default with
    | mk msg thrown =>
      cases thrown with
      | none => rfl
      | some e => cases e <;> rfl

theorem parse_reload_request_eq (lib : Library) (d : Inbound lib) (s c : String) :
    parse_reload_request lib d s c = try_parse lib.parse d.reload_request_default
      d.from_json_reload_request "Failed to parse reload request message: " s c := by
  unfold parse_reload_request try_parse
  cases lib.parse s with
  | error e => cases e <;> rfl
  | ok j =>
    dsimp only
    cases d.from_json_reload_request j d.reload_request_default with
    | mk msg thrown =>
      cases thrown with
      | none => rfl
      | some e => cases e <;> rfl

theorem parse_disconnect_eq (lib : Library) (d : Inbound lib) (s c : String) :
    parse_disconnect lib d s c = try_parse lib.parse d.disconnect_default
      d.from_json_disconnect "Failed to parse disconnect message: " s c := by
  unfold parse_disconnect try_parse
  cases lib.parse s with
  | error e => cases e <;> rfl
  | ok j =>
    dsimp only
    cases d.from_json_disconnect j d.disconnect_default with
    | mk msg thrown =>
      cases thrown with
      | none => rfl
      | some e => cases e <;> rfl

theorem serialize_state_update_eq (lib : Library) (d : Outbound lib)
    (m : d.state_update_message) :
    serialize_state_update lib d m =
      dump_of lib.null lib.dump d.to_json_state_update m := by
  unfold serialize_state_update dump_of
  cases d.to_json_state_update lib.null m with
  | error e => rfl
  | ok j => cases lib.dump j <;> rfl

theorem serialize_error_eq (lib : Library) (d : Outbound lib) (m : d.error_message) :
    serialize_error lib d m = dump_of lib.null lib.dump d.to_json_error m := by
  unfold serialize_error dump_of
  cases d.to_json_error lib.null m with
  | error e => rfl
  | ok j => cases lib.dump j <;> rfl

theorem serialize_handshake_response_eq (lib : Library) (d : Outbound lib)
    (m : d.handshake_response) :
    serialize_handshake_response lib d m =
      dump_of lib.null lib.dump d.to_json_handshake_response m := by
  unfold serialize_handshake_response dump_of
  cases d.to_json_handshake_response lib.null m with
  | error e => rfl
  | ok j => cases lib.dump j <;> rfl

theorem serialize_reload_response_eq (lib : Library) (d : Outbound lib)
    (m : d.reload_response_message) :
    serialize_reload_response lib d m =
      dump_of lib.null lib.dump d.to_json_reload_response m := by
  unfold serialize_reload_response dump_of
  cases d.to_json_reload_response lib.null m with
  | error e => rfl
  | ok j => cases lib.dump j <;> rfl

/-! ## The shared shape of the parsers -/

section shape

variable {J M : Type} (parse : String → Except Thrown J) (dflt : M)
  (from_json : J → M → Converted M) (pre s cerr : String)

/-- The three ways a parser call ends. -/
theorem try_parse_cases :
    (∃ w, raises_json parse dflt from_json s w ∧
      try_parse parse dflt from_json pre s cerr = ⟨.returned none, emit cerr pre w⟩) ∨
    (∃ w, raises_other parse dflt from_json s w ∧
      try_parse parse dflt from_json pre s cerr = ⟨.propagated (.other w), cerr⟩) ∨
    (∃ j m, parse s = .ok j ∧ from_json j dflt = ⟨m, none⟩ ∧
      try_parse parse dflt from_json pre s cerr = ⟨.returned (some m), cerr⟩) := by
  unfold try_parse
  cases hp : parse s with
  | error e =>
    cases e with
    | json_exception w => exact Or.inl ⟨w, Or.inl hp, rfl⟩
    | other w => exact Or.inr (Or.inl ⟨w, Or.inl hp, rfl⟩)
  | ok j =>
    dsimp only
    cases hf : from_json j dflt with
    | mk msg thrown =>
      cases thrown with
      | none => exact Or.inr (Or.inr ⟨j, msg, rfl, hf, rfl⟩)
      | some e =>
        cases e with
        | json_exception w => exact Or.inl ⟨w, Or.inr ⟨j, msg, hp, hf⟩, rfl⟩
        | other w => exact Or.inr (Or.inl ⟨w, Or.inr ⟨j, msg, hp, hf⟩, rfl⟩)



theorem try_parse_of_raises_json (w : String)
    (h : raises_json parse dflt from_json s w) :
    try_parse parse dflt from_json pre s cerr = ⟨.returned none, emit cerr pre w⟩ := by
  unfold try_parse
  rcases h with h | ⟨j, left, hp, hf⟩
  · rw [h]
  · rw [hp]; dsimp only; rw [hf]

theorem try_parse_of_raises_other (w : String)
    (h : raises_other parse dflt from_json s w) :
    try_parse parse dflt from_json pre s cerr = ⟨.propagated (.other w), cerr⟩ := by
  unfold try_parse
  rcases h with h | ⟨j, left, hp, hf⟩
  · rw [h]
  · rw [hp]; dsimp only; rw [hf]

theorem try_parse_of_converted (j : J) (m : M) (hp : parse s = .ok j)
    (hf : from_json j dflt = ⟨m, none⟩) :
    try_parse parse dflt from_json pre s cerr = ⟨.returned (some m), cerr⟩ := by
  unfold try_parse
  rw [hp]; dsimp only; rw [hf]

/-- A conversion that ends with a JSON exception is a `raises_json`. -/
theorem raises_json_of_thrown (j : J) (w : String) (hp : parse s = .ok j)
    (hf : (from_json j dflt).thrown = some (.json_exception w)) :
    raises_json parse dflt from_json s w := by
  refine Or.inr ⟨j, (from_json j dflt).msg, hp, ?_⟩
  cases hc : from_json j dflt with
  | mk msg thrown =>
    rw [hc] at hf
    simp only at hf
    rw [hf]

/-- The diagnostic line is not empty. -/
theorem emit_ne (w : String) : emit cerr pre w ≠ cerr := by
  intro h
  have hlen := congrArg String.length h
  have hnl : "\n".length = 1 := rfl
  simp only [emit, String.length_append, hnl] at hlen
  omega

theorem try_parse_returns_iff :
    returns_value (try_parse parse dflt from_json pre s cerr).result ↔
      ∀ w, ¬ raises_other parse dflt from_json s w := by
  constructor
  · rintro ⟨v, hv⟩ w hw
    rw [try_parse_of_raises_other parse dflt from_json pre s cerr w hw] at hv
    cases hv
  · intro h
    rcases try_parse_cases parse dflt from_json pre s cerr with
      ⟨w, _, hc⟩ | ⟨w, hw, _⟩ | ⟨j, m, _, _, hc⟩
    · exact ⟨none, by rw [hc]⟩
    · exact absurd hw (h w)
    · exact ⟨some m, by rw [hc]⟩

theorem try_parse_all_or_nothing :
    all_or_nothing parse dflt from_json s
      (try_parse parse dflt from_json pre s cerr).result := by
  refine ⟨fun m => ⟨fun h => ?_, fun h => ?_⟩, fun w hw => ?_⟩
  · rcases try_parse_cases parse dflt from_json pre s cerr with
      ⟨w, _, hc⟩ | ⟨w, _, hc⟩ | ⟨j, m', hp, hf, hc⟩
    · rw [hc] at h; cases h
    · rw [hc] at h; cases h
    · rw [hc] at h
      cases h
      exact ⟨j, hp, hf⟩
  · obtain ⟨j, hp, hf⟩ := h
    rw [try_parse_of_converted parse dflt from_json pre s cerr j m hp hf]
  · rw [try_parse_of_raises_json parse dflt from_json pre s cerr w hw]

theorem try_parse_emits_diagnostic :
    emits_diagnostic parse dflt from_json pre s cerr
      (try_parse parse dflt from_json pre s cerr) := by
  rcases try_parse_cases parse dflt from_json pre s cerr with
    ⟨w, hw, hc⟩ | ⟨w, _, hc⟩ | ⟨j, m, _, _, hc⟩
  · rw [hc]
    exact ⟨⟨fun _ => rfl, fun _ => emit_ne pre cerr w⟩, fun _ => ⟨w, hw, rfl⟩,
      fun h => absurd rfl h⟩
  · rw [hc]
    refine ⟨⟨fun h => absurd rfl h, fun h => ?_⟩, fun h => ?_, fun _ => rfl⟩
    · cases h
    · cases h
  · rw [hc]
    refine ⟨⟨fun h => absurd rfl h, fun h => ?_⟩, fun h => ?_, fun _ => rfl⟩
    · cases h
    · cases h

/-- The result of a parser call does not depend on what is on the stream. -/
theorem try_parse_result_stream (cerr₁ cerr₂ : String) :
    (try_parse parse dflt from_json pre s cerr₁).result =
      (try_parse parse dflt from_json pre s cerr₂).result := by
  rcases try_parse_cases parse dflt from_json pre s cerr₁ with
    ⟨w, hw, hc⟩ | ⟨w, hw, hc⟩ | ⟨j, m, hp, hf, hc⟩
  · rw [hc, try_parse_of_raises_json parse dflt from_json pre s cerr₂ w hw]
  · rw [hc, try_parse_of_raises_other parse dflt from_json pre s cerr₂ w hw]
  · rw [hc, try_parse_of_converted parse dflt from_json pre s cerr₂ j m hp hf]

end shape

/-! ## The shared shape of the serializers -/

theorem dump_of_spec {J M : Type} (null : J) (dump : J → Except Thrown String)
    (to_json : J → M → Except Thrown J) (msg : M) :
    returns_dump_or_propagates null dump to_json msg (dump_of null dump to_json msg) := by
  unfold dump_of
  refine ⟨fun j text hj hd => ?_, fun e he => ?_, fun j e hj hd => ?_⟩
  · rw [hj]; dsimp only; rw [hd]
  · rw [he]
  · rw [hj]; dsimp only; rw [hd]

/-- The conversion throws nothing but JSON exceptions. -/
theorem spec_from_json_thrown (schema : Schema) (j : JVal) (msg : Record) (e : Thrown)
    (h : (spec_from_json schema j msg).thrown = some e) :
    ∃ w, e = .json_exception w := by
  induction schema generalizing msg with
  | nil => simp [spec_from_json] at h
  | cons f fs ih =>
    unfold spec_from_json at h
    split at h
    · split at h
      · simp only [Option.some.injEq] at h
        exact ⟨_, h.symm⟩
      · exact ih msg h
    · split at h
      · exact ih _ h
      · simp only [Option.some.injEq] at h
        exact ⟨_, h.symm⟩

/-- A missing required field makes the conversion throw. -/
theorem spec_from_json_lacks (schema : Schema) (j : JVal) (msg : Record)
    (h : lacks_required schema j) :
    (spec_from_json schema j msg).thrown ≠ none := by
  induction schema generalizing msg with
  | nil =>
    obtain ⟨f, hf, _⟩ := h
    cases hf
  | cons f fs ih =>
    obtain ⟨g, hg, hreq, habs⟩ := h
    unfold spec_from_json
    split
    · split
      · simp
      · next hopt =>
        rcases List.mem_cons.mp hg with rfl | hmem
        · exact absurd hreq hopt
        · exact ih msg ⟨g, hmem, hreq, habs⟩
    · next v hv =>
      split
      · rcases List.mem_cons.mp hg with rfl | hmem
        · rw [habs] at hv; cases hv
        · exact ih _ ⟨g, hmem, hreq, habs⟩
      · simp

/-- A field of the wrong JSON type makes the conversion throw. -/
theorem spec_from_json_wrong_type (schema : Schema) (j : JVal) (msg : Record)
    (h : has_wrong_type schema j) :
    (spec_from_json schema j msg).thrown ≠ none := by
  induction schema generalizing msg with
  | nil =>
    obtain ⟨f, hf, _⟩ := h
    cases hf
  | cons f fs ih =>
    obtain ⟨g, hg, v, hv, hty⟩ := h
    unfold spec_from_json
    split
    · next habs =>
      split
      · simp
      · rcases List.mem_cons.mp hg with rfl | hmem
        · rw [habs] at hv; cases hv
        · exact ih msg ⟨g, hmem, v, hv, hty⟩
    · next v' hv' =>
      split
      · next hsame =>
        rcases List.mem_cons.mp hg with rfl | hmem
        · rw [hv'] at hv
          cases hv
          exact absurd hsame hty
        · exact ih _ ⟨g, hmem, v, hv, hty⟩
      · simp

/-- A conversion that throws makes the parser return `std::nullopt`. -/
theorem try_parse_spec_thrown (parse : String → Except Thrown JVal) (schema : Schema)
    (pre s cerr : String) (j : JVal) (hp : parse s = .ok j)
    (h : (spec_from_json schema j schema.default_message).thrown ≠ none) :
    (try_parse parse schema.default_message (spec_from_json schema) pre s cerr).result =
      .returned none := by
  cases hth : (spec_from_json schema j schema.default_message).thrown with
  | none => exact absurd hth h
  | some e =>
    obtain ⟨w, rfl⟩ := spec_from_json_thrown schema j _ e hth
    rw [try_parse_of_raises_json parse _ _ pre s cerr w
      (raises_json_of_thrown parse _ _ s j w hp hth)]

/-! ## Parsers: malformed text -/

/-- C1: when the JSON text parser raises its parse error (a
`nlohmann::json::exception`) on the input text, each of `parse_handshake`,
`parse_action`, `parse_reload_request` and `parse_disconnect` returns
`std::nullopt`; no exception reaches the caller. -/
theorem malformed_text_gives_nullopt (lib : Library) (d : Inbound lib)
    (json_str cerr what : String)
    (h : lib.parse json_str = .error (.json_exception what)) :
    (parse_handshake lib d json_str cerr).result = .returned none ∧
    (parse_action lib d json_str cerr).result = .returned none ∧
    (parse_reload_request lib d json_str cerr).result = .returned none ∧
    (parse_disconnect lib d json_str cerr).result = .returned none := by
  refine ⟨?_, ?_, ?_, ?_⟩
  · rw [parse_handshake_eq, try_parse_of_raises_json _ _ _ _ _ _ what (Or.inl h)]
  · rw [parse_action_eq, try_parse_of_raises_json _ _ _ _ _ _ what (Or.inl h)]
  · rw [parse_reload_request_eq, try_parse_of_raises_json _ _ _ _ _ _ what (Or.inl h)]
  · rw [parse_disconnect_eq, try_parse_of_raises_json _ _ _ _ _ _ what (Or.inl h)]

/-- C1 at a truncated text: the parse error is raised and all four parsers
return `std::nullopt`. -/
theorem malformed_text_gives_nullopt_witness :
    sample_library.parse "\x7b\"reason\":" =
      .error (.json_exception "[json.exception.parse_error.101] parse error") ∧
    (parse_handshake sample_library sample_inbound "\x7b\"reason\":" "").result =
      .returned none ∧
    (parse_action sample_library sample_inbound "\x7b\"reason\":" "").result =
      .returned none ∧
    (parse_reload_request sample_library sample_inbound "\x7b\"reason\":" "").result =
      .returned none ∧
    (parse_disconnect sample_library sample_inbound "\x7b\"reason\":" "").result =
      .returned none :=
  ⟨rfl,
    malformed_text_gives_nullopt sample_library sample_inbound "\x7b\"reason\":" ""
      "[json.exception.parse_error.101] parse error" rfl⟩

/-! ## Parsers: which exceptions are caught -/

/-- C2, as the code has it: the handler of each parser names
`nlohmann::json::exception`, so an exception of another type is not caught. When
`json::parse` throws `std::bad_alloc`, `parse_handshake` returns nothing and the
exception reaches the caller. -/
theorem bad_alloc_reaches_caller :
    (parse_handshake exhausted_library exhausted_inbound "\x7b\x7d" "").result =
      .propagated (.other "std::bad_alloc") ∧
    ¬ returns_value
      (parse_handshake exhausted_library exhausted_inbound "\x7b\x7d" "").result := by
  have h : (parse_handshake exhausted_library exhausted_inbound "\x7b\x7d" "").result =
      .propagated (.other "std::bad_alloc") := rfl
  refine ⟨h, ?_⟩
  rintro ⟨v, hv⟩
  rw [h] at hv
  cases hv

/-- C2, amended: for every input text, each of the four parsers returns a value
(a message or `std::nullopt`) exactly when neither the JSON text parse nor the
`from_json` conversion throws an exception of a type other than
`nlohmann::json::exception`; success and JSON exceptions never let a fault
reach the caller. -/
theorem returns_iff_no_foreign_exception (lib : Library) (d : Inbound lib)
    (json_str cerr : String) :
    (returns_value (parse_handshake lib d json_str cerr).result ↔
      ∀ w, ¬ raises_other lib.parse d.handshake_default d.from_json_handshake
        json_str w) ∧
    (returns_value (parse_action lib d json_str cerr).result ↔
      ∀ w, ¬ raises_other lib.parse d.action_default d.from_json_action json_str w) ∧
    (returns_value (parse_reload_request lib d json_str cerr).result ↔
      ∀ w, ¬ raises_other lib.parse d.reload_request_default
        d.from_json_reload_request json_str w) ∧
    (returns_value (parse_disconnect lib d json_str cerr).result ↔
      ∀ w, ¬ raises_other lib.parse d.disconnect_default d.from_json_disconnect
        json_str w) := by
  refine ⟨?_, ?_, ?_, ?_⟩
  · rw [parse_handshake_eq]; exact try_parse_returns_iff _ _ _ _ _ _
  · rw [parse_action_eq]; exact try_parse_returns_iff _ _ _ _ _ _
  · rw [parse_reload_request_eq]; exact try_parse_returns_iff _ _ _ _ _ _
  · rw [parse_disconnect_eq]; exact try_parse_returns_iff _ _ _ _ _ _

/-! ## Parsers: rejection of incomplete and ill-typed objects -/

/-- C4: with the conversion modelled from the specification, a well-formed JSON
text whose value lacks a field required by the kind makes the parser of that
kind return `std::nullopt`, never a message, for each of the four parsers; in
particular `parse_handshake` returns `std::nullopt` on the text of the empty
object, a handshake having a required field. -/
theorem missing_required_field_gives_nullopt
    (parse : String → Except Thrown JVal) (dump : JVal → Except Thrown String)
    (handshake action reload_request disconnect : Schema)
    (json_str cerr : String) (j : JVal) (hj : parse json_str = .ok j) :
    (lacks_required handshake j →
      (parse_handshake (jval_library parse dump)
        (spec_inbound parse dump handshake action reload_request disconnect)
        json_str cerr).result = .returned none) ∧
    (lacks_required action j →
      (parse_action (jval_library parse dump)
        (spec_inbound parse dump handshake action reload_request disconnect)
        json_str cerr).result = .returned none) ∧
    (lacks_required reload_request j →
      (parse_reload_request (jval_library parse dump)
        (spec_inbound parse dump handshake action reload_request disconnect)
        json_str cerr).result = .returned none) ∧
    (lacks_required disconnect j →
      (parse_disconnect (jval_library parse dump)
        (spec_inbound parse dump handshake action reload_request disconnect)
        json_str cerr).result = .returned none) ∧
    (json_str = "\x7b\x7d" → j = .object [] → (∃ f ∈ handshake, f.required = true) →
      (parse_handshake (jval_library parse dump)
        (spec_inbound parse dump handshake action reload_request disconnect)
        "\x7b\x7d" cerr).result = .returned none) := by
  refine ⟨fun h => ?_, fun h => ?_, fun h => ?_, fun h => ?_, ?_⟩
  · rw [parse_handshake_eq]
    exact try_parse_spec_thrown parse handshake _ json_str cerr j hj
      (spec_from_json_lacks handshake j _ h)
  · rw [parse_action_eq]
    exact try_parse_spec_thrown parse action _ json_str cerr j hj
      (spec_from_json_lacks action j _ h)
  · rw [parse_reload_request_eq]
    exact try_parse_spec_thrown parse reload_request _ json_str cerr j hj
      (spec_from_json_lacks reload_request j _ h)
  · rw [parse_disconnect_eq]
    exact try_parse_spec_thrown parse disconnect _ json_str cerr j hj
      (spec_from_json_lacks disconnect j _ h)
  · rintro rfl rfl ⟨f, hf, hreq⟩
    rw [parse_handshake_eq]
    exact try_parse_spec_thrown parse handshake _ _ cerr _ hj
      (spec_from_json_lacks handshake _ _ ⟨f, hf, hreq, rfl⟩)

/-- C4 on the text of the empty object: it parses, the handshake of the
instance requires `protocol_version`, and `parse_handshake` returns
`std::nullopt`. -/
theorem missing_required_field_gives_nullopt_witness :
    sample_parse "\x7b\x7d" = .ok (.object []) ∧
    lacks_required sample_handshake (.object []) ∧
    (parse_handshake sample_library sample_inbound "\x7b\x7d" "").result =
      .returned none :=
  have hl : lacks_required sample_handshake (.object []) :=
    ⟨⟨"protocol_version", .string, true, .string []⟩, List.mem_cons_self _ _, rfl, rfl⟩
  ⟨rfl, hl,
    (missing_required_field_gives_nullopt sample_parse sample_dump sample_handshake
      sample_action sample_reload_request sample_disconnect "\x7b\x7d" ""
      (.object []) rfl).1 hl⟩

/-- C5: with the conversion modelled from the specification, a well-formed JSON
text whose value has every required field of the kind and holds, in some field
of the kind, a value of another JSON type than the declared one makes the parser
of that kind return `std::nullopt`, for each of the four parsers. -/
theorem wrong_type_gives_nullopt
    (parse : String → Except Thrown JVal) (dump : JVal → Except Thrown String)
    (handshake action reload_request disconnect : Schema)
    (json_str cerr : String) (j : JVal) (hj : parse json_str = .ok j) :
    (has_all_required handshake j → has_wrong_type handshake j →
      (parse_handshake (jval_library parse dump)
        (spec_inbound parse dump handshake action reload_request disconnect)
        json_str cerr).result = .returned none) ∧
    (has_all_required action j → has_wrong_type action j →
      (parse_action (jval_library parse dump)
        (spec_inbound parse dump handshake action reload_request disconnect)
        json_str cerr).result = .returned none) ∧
    (has_all_required reload_request j → has_wrong_type reload_request j →
      (parse_reload_request (jval_library parse dump)
        (spec_inbound parse dump handshake action reload_request disconnect)
        json_str cerr).result = .returned none) ∧
    (has_all_required disconnect j → has_wrong_type disconnect j →
      (parse_disconnect (jval_library parse dump)
        (spec_inbound parse dump handshake action reload_request disconnect)
        json_str cerr).result = .returned none) := by
  refine ⟨fun _ h => ?_, fun _ h => ?_, fun _ h => ?_, fun _ h => ?_⟩
  · rw [parse_handshake_eq]
    exact try_parse_spec_thrown parse handshake _ json_str cerr j hj
      (spec_from_json_wrong_type handshake j _ h)
  · rw [parse_action_eq]
    exact try_parse_spec_thrown parse action _ json_str cerr j hj
      (spec_from_json_wrong_type action j _ h)
  · rw [parse_reload_request_eq]
    exact try_parse_spec_thrown parse reload_request _ json_str cerr j hj
      (spec_from_json_wrong_type reload_request j _ h)
  · rw [parse_disconnect_eq]
    exact try_parse_spec_thrown parse disconnect _ json_str cerr j hj
      (spec_from_json_wrong_type disconnect j _ h)

/-- C5 on a disconnect text whose `reason` is the number 42 where a string is
declared: the field is present, its type is wrong, and `parse_disconnect`
returns `std::nullopt`. -/
theorem wrong_type_gives_nullopt_witness :
    sample_parse "\x7b\"reason\":42\x7d" = .ok (.object [("reason", .number 42)]) ∧
    has_all_required sample_disconnect (.object [("reason", .number 42)]) ∧
    has_wrong_type sample_disconnect (.object [("reason", .number 42)]) ∧
    (parse_disconnect sample_library sample_inbound "\x7b\"reason\":42\x7d" "").result =
      .returned none :=
  have hall : has_all_required sample_disconnect (.object [("reason", .number 42)]) := by
    intro f hf _
    rcases List.mem_singleton.mp hf with rfl
    rfl
  have hbad : has_wrong_type sample_disconnect (.object [("reason", .number 42)]) :=
    ⟨⟨"reason", .string, true, .string []⟩, List.mem_cons_self _ _, .number 42, rfl,
      by decide⟩
  ⟨rfl, hall, hbad,
    (wrong_type_gives_nullopt sample_parse sample_dump sample_handshake
      sample_action sample_reload_request sample_disconnect "\x7b\"reason\":42\x7d" ""
      (.object [("reason", .number 42)]) rfl).2.2.2 hall hbad⟩

/-! ## Serializers -/

/-- C7, as the code has it: the serializers have no handler, so the type error
that `dump` raises on a string that is not UTF-8 leaves `serialize_error`: on an
`error_message` whose detail is the byte 0xFF no text is returned. -/
theorem invalid_utf8_leaves_serialize_error :
    serialize_error sample_library sample_outbound bad_utf8_error =
      .propagated (.json_exception
        "[json.exception.type_error.316] invalid UTF-8 byte at index 0: 0xFF") ∧
    ¬ returns_value (serialize_error sample_library sample_outbound bad_utf8_error) := by
  have h : serialize_error sample_library sample_outbound bad_utf8_error =
      .propagated (.json_exception
        "[json.exception.type_error.316] invalid UTF-8 byte at index 0: 0xFF") := by
    decide
  refine ⟨h, ?_⟩
  rintro ⟨v, hv⟩
  rw [h] at hv
  cases hv

/-- C7, amended: for every message, each of `serialize_state_update`,
`serialize_error`, `serialize_handshake_response` and `serialize_reload_response`
returns the text of `dump` whenever `to_json` and `dump` complete, and an
exception thrown by either step (such as the type error of `dump` on a string
that is not UTF-8) is not caught and reaches the caller. -/
theorem serializers_return_dump_or_propagate (lib : Library) (d : Outbound lib) :
    (∀ m, returns_dump_or_propagates lib.null lib.dump d.to_json_state_update m
      (serialize_state_update lib d m)) ∧
    (∀ m, returns_dump_or_propagates lib.null lib.dump d.to_json_error m
      (serialize_error lib d m)) ∧
    (∀ m, returns_dump_or_propagates lib.null lib.dump d.to_json_handshake_response m
      (serialize_handshake_response lib d m)) ∧
    (∀ m, returns_dump_or_propagates lib.null lib.dump d.to_json_reload_response m
      (serialize_reload_response lib d m)) := by
  refine ⟨fun m => ?_, fun m => ?_, fun m => ?_, fun m => ?_⟩
  · rw [serialize_state_update_eq]; exact dump_of_spec _ _ _ m
  · rw [serialize_error_eq]; exact dump_of_spec _ _ _ m
  · rw [serialize_handshake_response_eq]; exact dump_of_spec _ _ _ m
  · rw [serialize_reload_response_eq]; exact dump_of_spec _ _ _ m

/-- C9: for every input text, each of the four parsers returns a message `m`
if and only if the JSON text parse succeeds with a value `j` and `from_json`
completes on `j` without an exception, `m` being what `from_json` made of the
default-constructed message; when either step raises a JSON exception the result
is `std::nullopt`, whatever `from_json` had assigned by then. -/
theorem parsers_all_or_nothing (lib : Library) (d : Inbound lib) (json_str cerr : String) :
    all_or_nothing lib.parse d.handshake_default d.from_json_handshake json_str
      (parse_handshake lib d json_str cerr).result ∧
    all_or_nothing lib.parse d.action_default d.from_json_action json_str
      (parse_action lib d json_str cerr).result ∧
    all_or_nothing lib.parse d.reload_request_default d.from_json_reload_request json_str
      (parse_reload_request lib d json_str cerr).result ∧
    all_or_nothing lib.parse d.disconnect_default d.from_json_disconnect json_str
      (parse_disconnect lib d json_str cerr).result := by
  refine ⟨?_, ?_, ?_, ?_⟩
  · rw [parse_handshake_eq]; exact try_parse_all_or_nothing _ _ _ _ _ _
  · rw [parse_action_eq]; exact try_parse_all_or_nothing _ _ _ _ _ _
  · rw [parse_reload_request_eq]; exact try_parse_all_or_nothing _ _ _ _ _ _
  · rw [parse_disconnect_eq]; exact try_parse_all_or_nothing _ _ _ _ _ _

/-- C10: with `std::cerr` as an append-only stream, each of the four parsers
writes to it if and only if it returns `std::nullopt`; it then appends exactly
one line, the prefix of its kind followed by the text of the caught exception;
otherwise the stream is left as it was; and the result is the same whatever the
stream held before. -/
theorem parsers_emit_diagnostic (lib : Library) (d : Inbound lib)
    (json_str cerr : String) :
    emits_diagnostic lib.parse d.handshake_default d.from_json_handshake
      "Failed to parse handshake message: " json_str cerr
      (parse_handshake lib d json_str cerr) ∧
    emits_diagnostic lib.parse d.action_default d.from_json_action
      "Failed to parse action message: " json_str cerr
      (parse_action lib d json_str cerr) ∧
    emits_diagnostic lib.parse d.reload_request_default d.from_json_reload_request
      "Failed to parse reload request message: " json_str cerr
      (parse_reload_request lib d json_str cerr) ∧
    emits_diagnostic lib.parse d.disconnect_default d.from_json_disconnect
      "Failed to parse disconnect message: " json_str cerr
      (parse_disconnect lib d json_str cerr) ∧
    (∀ other_cerr,
      (parse_handshake lib d json_str cerr).result =
        (parse_handshake lib d json_str other_cerr).result ∧
      (parse_action lib d json_str cerr).result =
        (parse_action lib d json_str other_cerr).result ∧
      (parse_reload_request lib d json_str cerr).result =
        (parse_reload_request lib d json_str other_cerr).result ∧
      (parse_disconnect lib d json_str cerr).result =
        (parse_disconnect lib d json_str other_cerr).result) := by
  refine ⟨?_, ?_, ?_, ?_, fun c => ⟨?_, ?_, ?_, ?_⟩⟩
  · rw [parse_handshake_eq]; exact try_parse_emits_diagnostic _ _ _ _ _ _
  · rw [parse_action_eq]; exact try_parse_emits_diagnostic _ _ _ _ _ _
  · rw [parse_reload_request_eq]; exact try_parse_emits_diagnostic _ _ _ _ _ _
  · rw [parse_disconnect_eq]; exact try_parse_emits_diagnostic _ _ _ _ _ _
  · rw [parse_handshake_eq, parse_handshake_eq]; exact try_parse_result_stream _ _ _ _ _ _ _
  · rw [parse_action_eq, parse_action_eq]; exact try_parse_result_stream _ _ _ _ _ _ _
  · rw [parse_reload_request_eq, parse_reload_request_eq]
    exact try_parse_result_stream _ _ _ _ _ _ _
  · rw [parse_disconnect_eq, parse_disconnect_eq]; exact try_parse_result_stream _ _ _ _ _ _ _

/-! ## Evaluations on the instance -/

/-- A disconnect text with the reason "client_shutdown" is accepted: the message
holds the reason, byte for byte, and nothing is written to the stream. -/
theorem parse_disconnect_accepts_reason :
    parse_disconnect sample_library sample_inbound
        "\x7b\"reason\":\"client_shutdown\"\x7d" "log\n" =
      ⟨.returned (some [("reason", .string (ascii "client_shutdown"))]), "log\n"⟩ :=
  rfl

/-- A handshake text without `client_name` is accepted, the optional field
keeping its default. -/
theorem parse_handshake_keeps_default :
    parse_handshake sample_library sample_inbound
        "\x7b\"protocol_version\":\"1.0\"\x7d" "" =
      ⟨.returned (some [("protocol_version", .string (ascii "1.0")),
        ("client_name", .string (ascii "anonymous"))]), ""⟩ :=
  rfl

/-- The empty object is no handshake; the line on the stream names the first
missing field. -/
theorem parse_handshake_reports_missing_field :
    parse_handshake sample_library sample_inbound "\x7b\x7d" "log\n" =
      ⟨.returned none,
        "log\nFailed to parse handshake message: missing field: protocol_version\n"⟩ :=
  rfl

/-- An `error_message` with an ASCII detail is serialized to compact text. -/
theorem serialize_error_returns_text :
    serialize_error sample_library sample_outbound plain_error =
      .returned "\x7b\"code\":7,\"detail\":\"bad \\\"seed\\\"\"\x7d" := by
  decide

end protocol
end cppsim
